import Mathlib

/-!
Shallow embedding of the hotel-management-app API handlers
(src/api/bookings.js, src/api/rooms.js, the guests handler in
src/unnamed/part_000) over an explicit record-store state.

Modelling conventions, fixed for the whole file:

* Calendar dates and timestamps are abstracted to `Nat` (days since an
  epoch); the Joi `date().iso()` shape check is inherent in the type,
  and the `min('now')` / `min(ref(...))` range checks become `≤` on
  `Nat`.
* Monetary values (`total_amount`, `price_per_night`) are `Rat`
  (JavaScript numbers carrying decimal amounts).  Joi
  `number().positive()` becomes `0 < x`.  Joi `precision(2)` with the
  default `convert: true` rounds instead of rejecting, so it is not a
  validation rule and is not modelled as one.
* Joi `validate` is called everywhere without options, so Joi defaults
  apply: `abortEarly: true` (validation stops at the first failing
  rule, in schema key order, and `error.details` holds that single
  message) and unknown object keys are rejected.  The per-rule
  predicates are modelled faithfully except the email format check,
  which is abstracted to the presence of an `@` character (no claim
  depends on the fine structure of the email regex).
* The Supabase record store is modelled as in-memory lists inside `DB`.
  Store reads and writes succeed, except for the two calls whose
  failure the bookings code explicitly tolerates (the conflict
  pre-check query and the room-availability writes): those take an
  explicit `Bool` failure flag so the tolerated failure modes can be
  stated.  PostgREST filter semantics: chained `.eq` / `.in` filters
  are conjoined, and an `.or(a,b)` group is the disjunction of its
  comma-separated conditions.
-/

namespace Hotel

/-- Booking status enumeration: booked, checked_in, checked_out, cancelled. -/
inductive BookingStatus
  | booked
  | checked_in
  | checked_out
  | cancelled
deriving DecidableEq, Repr

/-- A stored guest row (src/unnamed/part_000 guests table). -/
structure Guest where
  id : Nat
  name : String
  email : String
  phone : String
  address : Option String := none
  id_proof : Option String := none
deriving DecidableEq, Repr

/-- A stored room row (src/api/rooms.js rooms table). -/
structure Room where
  id : Nat
  room_number : String
  room_type : String
  capacity : Nat
  price_per_night : Rat
  is_available : Bool
deriving DecidableEq, Repr

/-- A stored booking row (src/api/bookings.js bookings table). -/
structure Booking where
  id : Nat
  guest_id : Nat
  room_id : Nat
  check_in_date : Nat
  check_out_date : Nat
  total_amount : Rat
  status : BookingStatus
  actual_check_in : Option Nat := none
  actual_check_out : Option Nat := none
deriving DecidableEq, Repr

/-- The record store: the three tables plus id sequences for inserts. -/
structure DB where
  guests : List Guest
  rooms : List Room
  bookings : List Booking
  nextGuestId : Nat := 1
  nextRoomId : Nat := 1
  nextBookingId : Nat := 1
deriving DecidableEq, Repr

/-- Errors the handlers report (one constructor per distinct 4xx shape). -/
inductive ApiError
  | validationFailed (details : List String)
  | guestNotFound
  | roomNotFound
  | roomUnavailable
  | bookingConflict
  | bookingNotFound
  | invalidTransition (msg : String)
  | activeBookingsGuard (msg : String)
  | duplicateKey (msg : String)
deriving DecidableEq, Repr

/-- Lookup by primary key: `.select(...).eq('id', x).single()`. -/
def findGuest (db : DB) (gid : Nat) : Option Guest :=
  db.guests.find? (fun g => g.id == gid)

/-- Lookup by primary key: `.select(...).eq('id', x).single()`. -/
def findRoom (db : DB) (rid : Nat) : Option Room :=
  db.rooms.find? (fun r => r.id == rid)

/-- Lookup by primary key: `.select('*').eq('id', x).single()`. -/
def findBooking (db : DB) (bid : Nat) : Option Booking :=
  db.bookings.find? (fun b => b.id == bid)

/-- Membership of a status in the PostgREST filter `in.(booked,checked_in)`. -/
def isActive : BookingStatus → Bool
  | .booked => true
  | .checked_in => true
  | _ => false

/-! ## Validation (Joi schemas, default options: abortEarly, unknown keys forbidden) -/

/-- Raw guest creation payload; `none` means the key is absent. -/
structure GuestPayload where
  name : Option String := none
  email : Option String := none
  phone : Option String := none
  address : Option String := none
  id_proof : Option String := none
deriving DecidableEq, Repr

/-- Abstraction of the Joi email format check (presence of an `@`). -/
def emailLike (s : String) : Bool :=
  s.contains '@'

/-- A character allowed by the Joi phone pattern (digits, space, hyphen,
plus, parentheses). -/
def phoneCharOk (c : Char) : Bool :=
  c.isDigit || c == ' ' || c == '-' || c == '+' || c == '(' || c == ')'

/-- guestSchema rule for `name`: required, length 2 to 100. -/
def nameRuleOk (p : GuestPayload) : Bool :=
  match p.name with
  | none => false
  | some s => 2 ≤ s.length && s.length ≤ 100

/-- guestSchema rule for `email`: required, email format. -/
def emailRuleOk (p : GuestPayload) : Bool :=
  match p.email with
  | none => false
  | some s => emailLike s

/-- guestSchema rule for `phone`: required, phone pattern, length at least 10. -/
def phoneRuleOk (p : GuestPayload) : Bool :=
  match p.phone with
  | none => false
  | some s => s.data.all phoneCharOk && 10 ≤ s.length

/-- guestSchema rule for `address`: optional, length at most 500. -/
def addressRuleOk (p : GuestPayload) : Bool :=
  match p.address with
  | none => true
  | some s => s.length ≤ 500

/-- guestSchema rule for `id_proof`: optional, length at most 100. -/
def idProofRuleOk (p : GuestPayload) : Bool :=
  match p.id_proof with
  | none => true
  | some s => s.length ≤ 100

def guestNameMsg : String := "name length must be between 2 and 100 characters"
def guestEmailMsg : String := "email must be a valid email"
def guestPhoneMsg : String := "phone fails to match the required pattern or is shorter than 10"
def guestAddressMsg : String := "address length must be at most 500 characters"
def guestIdProofMsg : String := "id_proof length must be at most 100 characters"

/-- Normalized guest fields after validation. -/
structure GuestFields where
  name : String
  email : String
  phone : String
  address : Option String
  id_proof : Option String
deriving DecidableEq, Repr

/-- `guestSchema.validate` (src/unnamed/part_000 lines 20-26): keys are
checked in schema order and, with the Joi default `abortEarly: true`, the
first failing rule is reported alone.  The `getD` defaults are unreachable:
the required-field rules already guarantee presence. -/
def guestValidate (p : GuestPayload) : Except (List String) GuestFields :=
  if nameRuleOk p = false then .error [guestNameMsg]
  else if emailRuleOk p = false then .error [guestEmailMsg]
  else if phoneRuleOk p = false then .error [guestPhoneMsg]
  else if addressRuleOk p = false then .error [guestAddressMsg]
  else if idProofRuleOk p = false then .error [guestIdProofMsg]
  else .ok { name := p.name.getD "", email := p.email.getD "",
             phone := p.phone.getD "", address := p.address,
             id_proof := p.id_proof }

/-- Raw room creation payload.  `roomSchema` (src/api/rooms.js lines 21-26)
has no `is_available` key, so a payload carrying one holds an unknown key,
which Joi rejects by default. -/
structure RoomPayload where
  room_number : Option String := none
  room_type : Option String := none
  capacity : Option Int := none
  price_per_night : Option Rat := none
  is_available : Option Bool := none
deriving DecidableEq, Repr

/-- The four admissible room types of `roomSchema`. -/
def roomTypeOk (s : String) : Bool :=
  s == "single" || s == "double" || s == "suite" || s == "dorm"

/-- roomSchema rule for `room_number`: required, length 1 to 20. -/
def roomNumberRuleOk (p : RoomPayload) : Bool :=
  match p.room_number with
  | none => false
  | some s => 1 ≤ s.length && s.length ≤ 20

/-- roomSchema rule for `room_type`: required, one of the enum values. -/
def roomTypeRuleOk (p : RoomPayload) : Bool :=
  match p.room_type with
  | none => false
  | some s => roomTypeOk s

/-- roomSchema rule for `capacity`: required integer between 1 and 20. -/
def capacityRuleOk (p : RoomPayload) : Bool :=
  match p.capacity with
  | none => false
  | some n => 1 ≤ n && n ≤ 20

/-- roomSchema rule for `price_per_night`: required positive number. -/
def priceRuleOk (p : RoomPayload) : Bool :=
  match p.price_per_night with
  | none => false
  | some q => decide (0 < q)

def roomNumberMsg : String := "room_number length must be between 1 and 20 characters"
def roomTypeMsg : String := "room_type must be one of single, double, suite, dorm"
def capacityMsg : String := "capacity must be an integer between 1 and 20"
def priceMsg : String := "price_per_night must be a positive number"
def unknownKeyMsg : String := "is_available is not allowed"

/-- Normalized room fields after validation. -/
structure RoomFields where
  room_number : String
  room_type : String
  capacity : Nat
  price_per_night : Rat
deriving DecidableEq, Repr

/-- `roomSchema.validate` (src/api/rooms.js line 123): schema keys in
order, then the unknown-key rejection for `is_available` (Joi default:
unknown keys are not allowed).  abortEarly as for guests. -/
def roomValidate (p : RoomPayload) : Except (List String) RoomFields :=
  if roomNumberRuleOk p = false then .error [roomNumberMsg]
  else if roomTypeRuleOk p = false then .error [roomTypeMsg]
  else if capacityRuleOk p = false then .error [capacityMsg]
  else if priceRuleOk p = false then .error [priceMsg]
  else if p.is_available.isSome then .error [unknownKeyMsg]
  else .ok { room_number := p.room_number.getD "",
             room_type := p.room_type.getD "",
             capacity := (p.capacity.getD 0).toNat,
             price_per_night := p.price_per_night.getD 0 }

/-- Raw booking creation payload. -/
structure BookingPayload where
  guest_id : Option Int := none
  room_id : Option Int := none
  check_in_date : Option Nat := none
  check_out_date : Option Nat := none
  total_amount : Option Rat := none
deriving DecidableEq, Repr

/-- bookingSchema rule for `guest_id`: required positive integer. -/
def guestIdRuleOk (p : BookingPayload) : Bool :=
  match p.guest_id with
  | none => false
  | some n => 0 < n

/-- bookingSchema rule for `room_id`: required positive integer. -/
def roomIdRuleOk (p : BookingPayload) : Bool :=
  match p.room_id with
  | none => false
  | some n => 0 < n

/-- bookingSchema rule for `check_in_date`: required date, `min('now')`
(not before today). -/
def checkInRuleOk (today : Nat) (p : BookingPayload) : Bool :=
  match p.check_in_date with
  | none => false
  | some d => today ≤ d

/-- bookingSchema rule for `check_out_date`: required date,
`min(Joi.ref('check_in_date'))` (not before check_in_date; when
check_in_date is absent the reference cannot be resolved and only the
presence requirement applies). -/
def checkOutRuleOk (p : BookingPayload) : Bool :=
  match p.check_out_date, p.check_in_date with
  | none, _ => false
  | some _, none => true
  | some dOut, some dIn => dIn ≤ dOut

/-- bookingSchema rule for `total_amount`: required positive number. -/
def amountRuleOk (p : BookingPayload) : Bool :=
  match p.total_amount with
  | none => false
  | some q => decide (0 < q)

def guestIdMsg : String := "guest_id must be a positive integer"
def roomIdMsg : String := "room_id must be a positive integer"
def checkInMsg : String := "check_in_date must be today or later"
def checkOutMsg : String := "check_out_date must not be before check_in_date"
def amountMsg : String := "total_amount must be a positive number"

/-- Normalized booking fields after validation. -/
structure BookingFields where
  guest_id : Nat
  room_id : Nat
  check_in_date : Nat
  check_out_date : Nat
  total_amount : Rat
deriving DecidableEq, Repr

/-- `bookingSchema.validate` (src/api/bookings.js lines 20-26), with
`today` the value of `now` used by `min('now')`.  Key order and
abortEarly as above. -/
def bookingValidate (today : Nat) (p : BookingPayload) :
    Except (List String) BookingFields :=
  if guestIdRuleOk p = false then .error [guestIdMsg]
  else if roomIdRuleOk p = false then .error [roomIdMsg]
  else if checkInRuleOk today p = false then .error [checkInMsg]
  else if checkOutRuleOk p = false then .error [checkOutMsg]
  else if amountRuleOk p = false then .error [amountMsg]
  else .ok { guest_id := (p.guest_id.getD 0).toNat,
             room_id := (p.room_id.getD 0).toNat,
             check_in_date := p.check_in_date.getD 0,
             check_out_date := p.check_out_date.getD 0,
             total_amount := p.total_amount.getD 0 }

/-- Raw booking update payload (`updateBookingSchema`, src/api/bookings.js
lines 28-35): every field optional, plus `status`; `.min(1)` requires at
least one key. -/
structure UpdateBookingPayload where
  guest_id : Option Int := none
  room_id : Option Int := none
  check_in_date : Option Nat := none
  check_out_date : Option Nat := none
  total_amount : Option Rat := none
  status : Option BookingStatus := none
deriving DecidableEq, Repr

/-- `.min(1)` of updateBookingSchema: at least one key present. -/
def updateHasKey (p : UpdateBookingPayload) : Bool :=
  p.guest_id.isSome || p.room_id.isSome || p.check_in_date.isSome ||
  p.check_out_date.isSome || p.total_amount.isSome || p.status.isSome

def updateGuestIdMsg : String := "guest_id must be a positive integer"
def updateRoomIdMsg : String := "room_id must be a positive integer"
def updateAmountMsg : String := "total_amount must be a positive number"
def updateMinMsg : String := "value must have at least 1 key"

/-- `updateBookingSchema.validate` (src/api/bookings.js line 316).  The
two date fields carry only the `date().iso()` shape check — no
`min('now')` and no `min(ref(check_in_date))` — which is inherent in the
`Nat` representation, so any present date value passes.  `status` is
restricted to the four enum values, inherent in `BookingStatus`. -/
def updateBookingValidate (p : UpdateBookingPayload) :
    Except (List String) UpdateBookingPayload :=
  if (match p.guest_id with | none => true | some n => 0 < n) = false then
    .error [updateGuestIdMsg]
  else if (match p.room_id with | none => true | some n => 0 < n) = false then
    .error [updateRoomIdMsg]
  else if (match p.total_amount with
           | none => true
           | some q => decide (0 < q)) = false then
    .error [updateAmountMsg]
  else if updateHasKey p = false then .error [updateMinMsg]
  else .ok p

/-- Raw guest update payload (`updateGuestSchema`, src/unnamed/part_000
lines 28-34): the same five keys as the create schema, all optional,
`.min(1)` requiring at least one. -/
structure UpdateGuestPayload where
  name : Option String := none
  email : Option String := none
  phone : Option String := none
  address : Option String := none
  id_proof : Option String := none
deriving DecidableEq, Repr

/-- updateGuestSchema rule for `name`: optional, length 2 to 100. -/
def updateGuestNameOk (p : UpdateGuestPayload) : Bool :=
  match p.name with
  | none => true
  | some s => 2 ≤ s.length && s.length ≤ 100

/-- updateGuestSchema rule for `email`: optional, email format. -/
def updateGuestEmailOk (p : UpdateGuestPayload) : Bool :=
  match p.email with
  | none => true
  | some s => emailLike s

/-- updateGuestSchema rule for `phone`: optional, phone pattern, length at
least 10. -/
def updateGuestPhoneOk (p : UpdateGuestPayload) : Bool :=
  match p.phone with
  | none => true
  | some s => s.data.all phoneCharOk && 10 ≤ s.length

/-- updateGuestSchema rule for `address`: optional, length at most 500. -/
def updateGuestAddressOk (p : UpdateGuestPayload) : Bool :=
  match p.address with
  | none => true
  | some s => s.length ≤ 500

/-- updateGuestSchema rule for `id_proof`: optional, length at most 100. -/
def updateGuestIdProofOk (p : UpdateGuestPayload) : Bool :=
  match p.id_proof with
  | none => true
  | some s => s.length ≤ 100

/-- `.min(1)` of updateGuestSchema: at least one key present. -/
def updateGuestHasKey (p : UpdateGuestPayload) : Bool :=
  p.name.isSome || p.email.isSome || p.phone.isSome ||
  p.address.isSome || p.id_proof.isSome

/-- `updateGuestSchema.validate` (src/unnamed/part_000 line 146): keys in
schema order, abortEarly as everywhere (the per-rule messages coincide
with the create schema, the rules being identical apart from
optionality). -/
def updateGuestValidate (p : UpdateGuestPayload) :
    Except (List String) UpdateGuestPayload :=
  if updateGuestNameOk p = false then .error [guestNameMsg]
  else if updateGuestEmailOk p = false then .error [guestEmailMsg]
  else if updateGuestPhoneOk p = false then .error [guestPhoneMsg]
  else if updateGuestAddressOk p = false then .error [guestAddressMsg]
  else if updateGuestIdProofOk p = false then .error [guestIdProofMsg]
  else if updateGuestHasKey p = false then .error [updateMinMsg]
  else .ok p

/-- Raw room update payload (`updateRoomSchema`, src/api/rooms.js lines
28-34): the four create keys plus `is_available`, all optional,
`.min(1)` requiring at least one.  Unlike the create schema,
`is_available` is a declared boolean key here, and the boolean shape
check is inherent in the `Option Bool` type. -/
structure UpdateRoomPayload where
  room_number : Option String := none
  room_type : Option String := none
  capacity : Option Int := none
  price_per_night : Option Rat := none
  is_available : Option Bool := none
deriving DecidableEq, Repr

/-- updateRoomSchema rule for `room_number`: optional, length 1 to 20. -/
def updateRoomNumberOk (p : UpdateRoomPayload) : Bool :=
  match p.room_number with
  | none => true
  | some s => 1 ≤ s.length && s.length ≤ 20

/-- updateRoomSchema rule for `room_type`: optional, one of the enum
values. -/
def updateRoomTypeOk (p : UpdateRoomPayload) : Bool :=
  match p.room_type with
  | none => true
  | some s => roomTypeOk s

/-- updateRoomSchema rule for `capacity`: optional integer between 1 and
20. -/
def updateRoomCapacityOk (p : UpdateRoomPayload) : Bool :=
  match p.capacity with
  | none => true
  | some n => 1 ≤ n && n ≤ 20

/-- updateRoomSchema rule for `price_per_night`: optional positive
number. -/
def updateRoomPriceOk (p : UpdateRoomPayload) : Bool :=
  match p.price_per_night with
  | none => true
  | some q => decide (0 < q)

/-- `.min(1)` of updateRoomSchema: at least one key present. -/
def updateRoomHasKey (p : UpdateRoomPayload) : Bool :=
  p.room_number.isSome || p.room_type.isSome || p.capacity.isSome ||
  p.price_per_night.isSome || p.is_available.isSome

/-- `updateRoomSchema.validate` (src/api/rooms.js line 166): keys in
schema order, abortEarly as everywhere. -/
def updateRoomValidate (p : UpdateRoomPayload) :
    Except (List String) UpdateRoomPayload :=
  if updateRoomNumberOk p = false then .error [roomNumberMsg]
  else if updateRoomTypeOk p = false then .error [roomTypeMsg]
  else if updateRoomCapacityOk p = false then .error [capacityMsg]
  else if updateRoomPriceOk p = false then .error [priceMsg]
  else if updateRoomHasKey p = false then .error [updateMinMsg]
  else .ok p

/-! ## Store write helpers -/

/-- `update(fields).eq('id', bid)` on the bookings table: apply `f` to
every row whose id matches. -/
def updateBookingRow (db : DB) (bid : Nat) (f : Booking → Booking) : DB :=
  { db with bookings := db.bookings.map (fun b => if b.id == bid then f b else b) }

/-- `update(is_available).eq('id', rid)` on the rooms table. -/
def setRoomAvailability (db : DB) (rid : Nat) (v : Bool) : DB :=
  { db with rooms := db.rooms.map (fun r =>
      if r.id == rid then { r with is_available := v } else r) }

/-- Insert a booking row with status `booked` and a store-assigned id
(src/api/bookings.js lines 189-200). -/
def insertBooking (db : DB) (v : BookingFields) : Booking × DB :=
  let b : Booking :=
    { id := db.nextBookingId, guest_id := v.guest_id, room_id := v.room_id,
      check_in_date := v.check_in_date, check_out_date := v.check_out_date,
      total_amount := v.total_amount, status := .booked }
  (b, { db with bookings := db.bookings ++ [b],
                nextBookingId := db.nextBookingId + 1 })

/-! ## Booking handlers (src/api/bookings.js) -/

/-- The conflict pre-check row filter built at src/api/bookings.js lines
169-174.  The chained `.eq('room_id', ...)` and
`.in('status', ['booked','checked_in'])` filters are conjoined, and the
`.or(check_in_date.lte.NEW_OUT, check_out_date.gte.NEW_IN)` group is, per
PostgREST semantics, the DISJUNCTION of its two date comparisons. -/
def conflictFilter (rid ci co : Nat) (b : Booking) : Bool :=
  b.room_id == rid && isActive b.status &&
    (decide (b.check_in_date ≤ co) || decide (ci ≤ b.check_out_date))

/-- The overlap test in the words of the spec (glossary: two ranges
[a1,a2] and [b1,b2] overlap iff a1 ≤ b2 AND a2 ≥ b1, inclusive).  Written
from the spec, not from the code, to compare with `conflictFilter`. -/
def specOverlap (a1 a2 b1 b2 : Nat) : Bool :=
  decide (a1 ≤ b2) && decide (b1 ≤ a2)

/-- `handleCreateBooking` (src/api/bookings.js lines 131-219).
`conflictQueryFails` injects a store failure into the conflict pre-check
query (the code logs it and continues without the check);
`roomUpdateFails` injects a failure into the post-insert
`is_available = false` write (the code logs it and still returns the
created booking). -/
def handleCreateBooking (db : DB) (today : Nat) (p : BookingPayload)
    (conflictQueryFails roomUpdateFails : Bool) :
    Except ApiError Booking × DB :=
  match bookingValidate today p with
  | .error ds => (.error (.validationFailed ds), db)
  | .ok v =>
    match findGuest db v.guest_id with
    | none => (.error .guestNotFound, db)
    | some _ =>
      match findRoom db v.room_id with
      | none => (.error .roomNotFound, db)
      | some room =>
        if !room.is_available then (.error .roomUnavailable, db)
        else
          let proceed : Except ApiError Booking × DB :=
            let ins := insertBooking db v
            let db2 := if roomUpdateFails then ins.2
                       else setRoomAvailability ins.2 v.room_id false
            (.ok ins.1, db2)
          if conflictQueryFails then
            -- conflictError branch: log and continue without the check
            proceed
          else
            let conflicts := db.bookings.filter
              (conflictFilter v.room_id v.check_in_date v.check_out_date)
            if conflicts.isEmpty = false then (.error .bookingConflict, db)
            else proceed

/-- `handleCheckIn` (src/api/bookings.js lines 221-258); `now` is the
timestamp written into `actual_check_in`. -/
def handleCheckIn (db : DB) (now : Nat) (bid : Nat) :
    Except ApiError Booking × DB :=
  match findBooking db bid with
  | none => (.error .bookingNotFound, db)
  | some b =>
    if b.status ≠ .booked then
      (.error (.invalidTransition "Only booked reservations can be checked in"), db)
    else
      (.ok { b with status := .checked_in, actual_check_in := some now },
       updateBookingRow db bid (fun x =>
         { x with status := .checked_in, actual_check_in := some now }))

/-- `handleCheckOut` (src/api/bookings.js lines 260-308); `roomUpdateFails`
injects a failure into the best-effort `is_available = true` write. -/
def handleCheckOut (db : DB) (now : Nat) (bid : Nat) (roomUpdateFails : Bool) :
    Except ApiError Booking × DB :=
  match findBooking db bid with
  | none => (.error .bookingNotFound, db)
  | some b =>
    if b.status ≠ .checked_in then
      (.error (.invalidTransition "Only checked-in guests can be checked out"), db)
    else
      let db1 := updateBookingRow db bid (fun x =>
        { x with status := .checked_out, actual_check_out := some now })
      let db2 := if roomUpdateFails then db1
                 else setRoomAvailability db1 b.room_id true
      (.ok { b with status := .checked_out, actual_check_out := some now }, db2)

/-- `handleUpdateBooking` applies the validated patch fields to the stored
row (src/api/bookings.js line 338: `.update(value).eq('id', bookingId)`). -/
def applyPatch (b : Booking) (p : UpdateBookingPayload) : Booking :=
  { b with
    guest_id := match p.guest_id with | some n => n.toNat | none => b.guest_id,
    room_id := match p.room_id with | some n => n.toNat | none => b.room_id,
    check_in_date := p.check_in_date.getD b.check_in_date,
    check_out_date := p.check_out_date.getD b.check_out_date,
    total_amount := p.total_amount.getD b.total_amount,
    status := p.status.getD b.status }

/-- `handleUpdateBooking` (src/api/bookings.js lines 310-349): validation,
existence check, then a direct patch — no conflict check, no availability
check, no status-transition gate. -/
def handleUpdateBooking (db : DB) (bid : Nat) (p : UpdateBookingPayload) :
    Except ApiError Booking × DB :=
  match updateBookingValidate p with
  | .error ds => (.error (.validationFailed ds), db)
  | .ok v =>
    match findBooking db bid with
    | none => (.error .bookingNotFound, db)
    | some b =>
      (.ok (applyPatch b v), updateBookingRow db bid (fun x => applyPatch x v))

/-- `handleCancelBooking` (src/api/bookings.js lines 351-402); the three
guard messages are the literal strings of the source.  `roomUpdateFails`
injects a failure into the best-effort `is_available = true` write. -/
def handleCancelBooking (db : DB) (bid : Nat) (roomUpdateFails : Bool) :
    Except ApiError String × DB :=
  match findBooking db bid with
  | none => (.error .bookingNotFound, db)
  | some b =>
    if b.status = .checked_in then
      (.error (.invalidTransition "Cannot cancel a booking for a checked-in guest"), db)
    else if b.status = .cancelled then
      (.error (.invalidTransition "Booking is already cancelled"), db)
    else if b.status = .checked_out then
      (.error (.invalidTransition "Cannot cancel a completed booking"), db)
    else
      let db1 := updateBookingRow db bid (fun x => { x with status := .cancelled })
      let db2 := if roomUpdateFails then db1
                 else setRoomAvailability db1 b.room_id true
      (.ok "Booking cancelled successfully", db2)

/-! ## Guest and room handlers (src/unnamed/part_000, src/api/rooms.js) -/

/-- `handleCreateGuest` (src/unnamed/part_000 lines 104-138): validation,
duplicate-email pre-check, insert. -/
def handleCreateGuest (db : DB) (p : GuestPayload) :
    Except ApiError Guest × DB :=
  match guestValidate p with
  | .error ds => (.error (.validationFailed ds), db)
  | .ok v =>
    match db.guests.find? (fun g => g.email == v.email) with
    | some _ => (.error (.duplicateKey "Email already registered"), db)
    | none =>
      let g : Guest :=
        { id := db.nextGuestId, name := v.name, email := v.email,
          phone := v.phone, address := v.address, id_proof := v.id_proof }
      (.ok g, { db with guests := db.guests ++ [g],
                        nextGuestId := db.nextGuestId + 1 })

/-- `handleCreateRoom` (src/api/rooms.js lines 121-158): validation,
duplicate room_number pre-check, then insert with `is_available: true`
spread over the validated fields unconditionally. -/
def handleCreateRoom (db : DB) (p : RoomPayload) :
    Except ApiError Room × DB :=
  match roomValidate p with
  | .error ds => (.error (.validationFailed ds), db)
  | .ok v =>
    match db.rooms.find? (fun r => r.room_number == v.room_number) with
    | some _ => (.error (.duplicateKey "Room number already exists"), db)
    | none =>
      let r : Room :=
        { id := db.nextRoomId, room_number := v.room_number,
          room_type := v.room_type, capacity := v.capacity,
          price_per_night := v.price_per_night, is_available := true }
      (.ok r, { db with rooms := db.rooms ++ [r],
                        nextRoomId := db.nextRoomId + 1 })

/-- Bookings selected by the delete-guard query of `handleDeleteGuest`
(src/unnamed/part_000 lines 201-205): guest_id matches and status is in
(booked, checked_in). -/
def activeGuestBookings (db : DB) (gid : Nat) : List Booking :=
  db.bookings.filter (fun b => b.guest_id == gid && isActive b.status)

/-- Bookings selected by the delete-guard query of `handleDeleteRoom`
(src/api/rooms.js lines 221-225). -/
def activeRoomBookings (db : DB) (rid : Nat) : List Booking :=
  db.bookings.filter (fun b => b.room_id == rid && isActive b.status)

/-- `handleDeleteGuest` (src/unnamed/part_000 lines 195-225): guard on
active bookings, then `.delete().eq('id', guestId)`. -/
def handleDeleteGuest (db : DB) (gid : Nat) : Except ApiError String × DB :=
  if (activeGuestBookings db gid).isEmpty = false then
    (.error (.activeBookingsGuard "Cannot delete guest with active bookings"), db)
  else
    (.ok "Guest deleted successfully",
     { db with guests := db.guests.filter (fun g => g.id != gid) })

/-- `handleDeleteRoom` (src/api/rooms.js lines 215-245): guard on active
bookings, then `.delete().eq('id', roomId)`. -/
def handleDeleteRoom (db : DB) (rid : Nat) : Except ApiError String × DB :=
  if (activeRoomBookings db rid).isEmpty = false then
    (.error (.activeBookingsGuard "Cannot delete room with active bookings"), db)
  else
    (.ok "Room deleted successfully",
     { db with rooms := db.rooms.filter (fun r => r.id != rid) })

/-! ## Helper lemmas -/

/-- Mapping an id-preserving function over a table commutes with a
find-by-id. -/
theorem find_after_map {α : Type} (key : α → Nat) (g : α → α)
    (hg : ∀ x, key (g x) = key x) (i : Nat)
    (l : List α) (b : α) (h : l.find? (fun x => key x == i) = some b) :
    (l.map g).find? (fun x => key x == i) = some (g b) := by
  rw [List.find?_map]
  have hc : ((fun x => key x == i) ∘ g) = (fun x => key x == i) := by
    funext x; simp [Function.comp, hg]
  rw [hc, h]; rfl

/-- A row found by id carries that id. -/
theorem key_of_find {α : Type} (key : α → Nat) (i : Nat) (l : List α) (b : α)
    (h : l.find? (fun x => key x == i) = some b) : key b = i := by
  have := List.find?_some h
  simpa using this

/-- `updateBookingRow` rewrites exactly the row a `findBooking` sees. -/
theorem findBooking_update (db : DB) (bid : Nat) (f : Booking → Booking)
    (hf : ∀ x, (f x).id = x.id) (b : Booking) (h : findBooking db bid = some b) :
    findBooking (updateBookingRow db bid f) bid = some (f b) := by
  have hg : ∀ x : Booking, (if x.id == bid then f x else x).id = x.id := by
    intro x; by_cases hx : (x.id == bid) = true <;> simp [hx, hf]
  have hmain := find_after_map (fun x : Booking => x.id)
    (fun x => if x.id == bid then f x else x) hg bid db.bookings b h
  have hb : b.id = bid := key_of_find (fun x : Booking => x.id) bid db.bookings b h
  simpa [findBooking, updateBookingRow, hb] using hmain

/-- `setRoomAvailability` rewrites exactly the row a `findRoom` sees. -/
theorem findRoom_set (db : DB) (rid : Nat) (v : Bool) (r : Room)
    (h : findRoom db rid = some r) :
    findRoom (setRoomAvailability db rid v) rid = some { r with is_available := v } := by
  have hg : ∀ x : Room,
      (if x.id == rid then { x with is_available := v } else x).id = x.id := by
    intro x; by_cases hx : (x.id == rid) = true <;> simp [hx]
  have hmain := find_after_map (fun x : Room => x.id)
    (fun x => if x.id == rid then { x with is_available := v } else x)
    hg rid db.rooms r h
  have hr : r.id = rid := key_of_find (fun x : Room => x.id) rid db.rooms r h
  simpa [findRoom, setRoomAvailability, hr] using hmain

/-- Booking-table writes leave the rooms table untouched. -/
theorem findRoom_updateBookingRow (db : DB) (bid : Nat) (f : Booking → Booking)
    (rid : Nat) :
    findRoom (updateBookingRow db bid f) rid = findRoom db rid := rfl

/-- Room-table writes leave the bookings table untouched. -/
theorem findBooking_setRoom (db : DB) (rid : Nat) (v : Bool) (bid : Nat) :
    findBooking (setRoomAvailability db rid v) bid = findBooking db bid := rfl

/-! ## Claim C2 -/

/-- C2: for an unknown booking id CheckIn reports NotFound; for a stored
booking it succeeds iff the current status is exactly booked — any other
prior status yields InvalidTransition with the store untouched — and on
success the status becomes checked_in, actual_check_in is set to the
current timestamp, and the updated booking is both returned and stored. -/
theorem checkIn_transition_spec (db : DB) (now bid : Nat) :
    (findBooking db bid = none →
       handleCheckIn db now bid = (.error .bookingNotFound, db))
  ∧ (∀ b, findBooking db bid = some b → b.status ≠ .booked →
       handleCheckIn db now bid =
         (.error (.invalidTransition "Only booked reservations can be checked in"), db))
  ∧ (∀ b, findBooking db bid = some b → b.status = .booked →
       (handleCheckIn db now bid).1 =
         .ok { b with status := .checked_in, actual_check_in := some now }
     ∧ findBooking (handleCheckIn db now bid).2 bid =
         some { b with status := .checked_in, actual_check_in := some now }) := by
  refine ⟨?_, ?_, ?_⟩
  · intro h; simp [handleCheckIn, h]
  · intro b hb hs; simp [handleCheckIn, hb, hs]
  · intro b hb hs
    refine ⟨by simp [handleCheckIn, hb, hs], ?_⟩
    have h2 : (handleCheckIn db now bid).2 =
        updateBookingRow db bid (fun x =>
          { x with status := .checked_in, actual_check_in := some now }) := by
      simp [handleCheckIn, hb, hs]
    rw [h2]
    exact findBooking_update db bid (fun x =>
      { x with status := .checked_in, actual_check_in := some now })
      (fun x => rfl) b hb

/-- Concrete booked booking for the C2 witness. -/
def bookingW2 : Booking :=
  { id := 1, guest_id := 1, room_id := 1, check_in_date := 10,
    check_out_date := 12, total_amount := 100, status := .booked }

/-- Store holding only `bookingW2`. -/
def dbW2 : DB := { guests := [], rooms := [], bookings := [bookingW2] }

/-- Witness for checkIn_transition_spec: checking in the stored booked
booking succeeds, stores status checked_in and the timestamp. -/
theorem checkIn_transition_spec_witness :
    (handleCheckIn dbW2 77 1).1 =
      .ok { bookingW2 with status := .checked_in, actual_check_in := some 77 }
  ∧ findBooking (handleCheckIn dbW2 77 1).2 1 =
      some { bookingW2 with status := .checked_in, actual_check_in := some 77 } :=
  (checkIn_transition_spec dbW2 77 1).2.2 bookingW2 rfl rfl

/-! ## Claim C3 -/

/-- C3: for an unknown booking id CheckOut reports NotFound; for a stored
booking it succeeds iff the current status is exactly checked_in — any
other status yields InvalidTransition with the store untouched — and on
success the status becomes checked_out, actual_check_out is set to the
current timestamp, the updated booking is returned and stored, and, when
the best-effort secondary write does not fail, the referenced room is
stored with is_available = true. -/
theorem checkOut_transition_spec (db : DB) (now bid : Nat) (uf : Bool) :
    (findBooking db bid = none →
       handleCheckOut db now bid uf = (.error .bookingNotFound, db))
  ∧ (∀ b, findBooking db bid = some b → b.status ≠ .checked_in →
       handleCheckOut db now bid uf =
         (.error (.invalidTransition "Only checked-in guests can be checked out"), db))
  ∧ (∀ b, findBooking db bid = some b → b.status = .checked_in →
       (handleCheckOut db now bid uf).1 =
         .ok { b with status := .checked_out, actual_check_out := some now }
     ∧ findBooking (handleCheckOut db now bid uf).2 bid =
         some { b with status := .checked_out, actual_check_out := some now }
     ∧ (∀ r, findRoom db b.room_id = some r → uf = false →
          findRoom (handleCheckOut db now bid uf).2 b.room_id =
            some { r with is_available := true })) := by
  refine ⟨?_, ?_, ?_⟩
  · intro h; cases uf <;> simp [handleCheckOut, h]
  · intro b hb hs; cases uf <;> simp [handleCheckOut, hb, hs]
  · intro b hb hs
    refine ⟨by cases uf <;> simp [handleCheckOut, hb, hs], ?_, ?_⟩
    · have hrow := findBooking_update db bid (fun x =>
        { x with status := .checked_out, actual_check_out := some now })
        (fun x => rfl) b hb
      cases uf with
      | false =>
        have h2 : (handleCheckOut db now bid false).2 =
            setRoomAvailability (updateBookingRow db bid (fun x =>
              { x with status := .checked_out, actual_check_out := some now }))
              b.room_id true := by
          simp [handleCheckOut, hb, hs]
        rw [h2, findBooking_setRoom]
        exact hrow
      | true =>
        have h2 : (handleCheckOut db now bid true).2 =
            updateBookingRow db bid (fun x =>
              { x with status := .checked_out, actual_check_out := some now }) := by
          simp [handleCheckOut, hb, hs]
        rw [h2]; exact hrow
    · intro r hr huf
      subst huf
      have h2 : (handleCheckOut db now bid false).2 =
          setRoomAvailability (updateBookingRow db bid (fun x =>
            { x with status := .checked_out, actual_check_out := some now }))
            b.room_id true := by
        simp [handleCheckOut, hb, hs]
      rw [h2]
      have hr1 : findRoom (updateBookingRow db bid (fun x =>
          { x with status := .checked_out, actual_check_out := some now }))
          b.room_id = some r := by rw [findRoom_updateBookingRow]; exact hr
      exact findRoom_set _ b.room_id true r hr1

/-- Concrete checked-in booking for the C3 witness. -/
def bookingW3 : Booking :=
  { id := 1, guest_id := 1, room_id := 4, check_in_date := 10,
    check_out_date := 12, total_amount := 100, status := .checked_in }

/-- Concrete occupied room for the C3 witness. -/
def roomW3 : Room :=
  { id := 4, room_number := "104", room_type := "double", capacity := 2,
    price_per_night := 90, is_available := false }

/-- Store holding `bookingW3` and `roomW3`. -/
def dbW3 : DB := { guests := [], rooms := [roomW3], bookings := [bookingW3] }

/-- Witness for checkOut_transition_spec: checking out the stored
checked-in booking succeeds, stores the terminal status and timestamp, and
flips the room back to available. -/
theorem checkOut_transition_spec_witness :
    (handleCheckOut dbW3 88 1 false).1 =
      .ok { bookingW3 with status := .checked_out, actual_check_out := some 88 }
  ∧ findBooking (handleCheckOut dbW3 88 1 false).2 1 =
      some { bookingW3 with status := .checked_out, actual_check_out := some 88 }
  ∧ findRoom (handleCheckOut dbW3 88 1 false).2 4 =
      some { roomW3 with is_available := true } :=
  ⟨((checkOut_transition_spec dbW3 88 1 false).2.2 bookingW3 rfl rfl).1,
   ((checkOut_transition_spec dbW3 88 1 false).2.2 bookingW3 rfl rfl).2.1,
   ((checkOut_transition_spec dbW3 88 1 false).2.2 bookingW3 rfl rfl).2.2 roomW3 rfl rfl⟩

/-! ## Claim C4 -/

/-- C4: for an unknown booking id CancelBooking reports NotFound; for a
stored booking it succeeds iff the current status is exactly booked, the
statuses checked_in, cancelled and checked_out each being rejected with
their own InvalidTransition message (the three messages pairwise
distinct) and the store untouched; on success the status becomes
cancelled and, when the best-effort secondary write does not fail, the
referenced room is stored with is_available = true. -/
theorem cancelBooking_transition_spec (db : DB) (bid : Nat) (uf : Bool) :
    (findBooking db bid = none →
       handleCancelBooking db bid uf = (.error .bookingNotFound, db))
  ∧ (∀ b, findBooking db bid = some b →
       (b.status = .checked_in →
          handleCancelBooking db bid uf =
            (.error (.invalidTransition "Cannot cancel a booking for a checked-in guest"), db))
     ∧ (b.status = .cancelled →
          handleCancelBooking db bid uf =
            (.error (.invalidTransition "Booking is already cancelled"), db))
     ∧ (b.status = .checked_out →
          handleCancelBooking db bid uf =
            (.error (.invalidTransition "Cannot cancel a completed booking"), db))
     ∧ (b.status = .booked →
          (handleCancelBooking db bid uf).1 = .ok "Booking cancelled successfully"
        ∧ findBooking (handleCancelBooking db bid uf).2 bid =
            some { b with status := .cancelled }
        ∧ (∀ r, findRoom db b.room_id = some r → uf = false →
             findRoom (handleCancelBooking db bid uf).2 b.room_id =
               some { r with is_available := true })))
  ∧ ("Cannot cancel a booking for a checked-in guest" ≠ "Booking is already cancelled"
   ∧ "Cannot cancel a booking for a checked-in guest" ≠ "Cannot cancel a completed booking"
   ∧ "Booking is already cancelled" ≠ "Cannot cancel a completed booking") := by
  refine ⟨?_, ?_, by decide, by decide, by decide⟩
  · intro h; cases uf <;> simp [handleCancelBooking, h]
  · intro b hb
    refine ⟨?_, ?_, ?_, ?_⟩
    · intro hs; cases uf <;> simp [handleCancelBooking, hb, hs]
    · intro hs; cases uf <;> simp [handleCancelBooking, hb, hs]
    · intro hs; cases uf <;> simp [handleCancelBooking, hb, hs]
    · intro hs
      refine ⟨by cases uf <;> simp [handleCancelBooking, hb, hs], ?_, ?_⟩
      · have hrow := findBooking_update db bid
          (fun x => { x with status := .cancelled }) (fun x => rfl) b hb
        cases uf with
        | false =>
          have h2 : (handleCancelBooking db bid false).2 =
              setRoomAvailability (updateBookingRow db bid
                (fun x => { x with status := .cancelled })) b.room_id true := by
            simp [handleCancelBooking, hb, hs]
          rw [h2, findBooking_setRoom]; exact hrow
        | true =>
          have h2 : (handleCancelBooking db bid true).2 =
              updateBookingRow db bid (fun x => { x with status := .cancelled }) := by
            simp [handleCancelBooking, hb, hs]
          rw [h2]; exact hrow
      · intro r hr huf
        subst huf
        have h2 : (handleCancelBooking db bid false).2 =
            setRoomAvailability (updateBookingRow db bid
              (fun x => { x with status := .cancelled })) b.room_id true := by
          simp [handleCancelBooking, hb, hs]
        rw [h2]
        have hr1 : findRoom (updateBookingRow db bid
            (fun x => { x with status := .cancelled })) b.room_id = some r := by
          rw [findRoom_updateBookingRow]; exact hr
        exact findRoom_set _ b.room_id true r hr1

/-- Concrete booked booking for the C4 witness. -/
def bookingW4 : Booking :=
  { id := 2, guest_id := 1, room_id := 5, check_in_date := 10,
    check_out_date := 12, total_amount := 100, status := .booked }

/-- Concrete occupied room for the C4 witness. -/
def roomW4 : Room :=
  { id := 5, room_number := "105", room_type := "suite", capacity := 4,
    price_per_night := 250, is_available := false }

/-- Store holding `bookingW4`, `roomW4`, and a cancelled booking on which
the status-specific rejection fires. -/
def dbW4 : DB :=
  { guests := [], rooms := [roomW4],
    bookings := [bookingW4,
      { id := 3, guest_id := 1, room_id := 5, check_in_date := 1,
        check_out_date := 2, total_amount := 50, status := .cancelled }] }

/-- Witness for cancelBooking_transition_spec: cancelling the stored
booked booking succeeds and frees its room, while cancelling the already
cancelled booking is rejected with the status-specific message. -/
theorem cancelBooking_transition_spec_witness :
    (handleCancelBooking dbW4 2 false).1 = .ok "Booking cancelled successfully"
  ∧ findBooking (handleCancelBooking dbW4 2 false).2 2 =
      some { bookingW4 with status := .cancelled }
  ∧ findRoom (handleCancelBooking dbW4 2 false).2 5 =
      some { roomW4 with is_available := true }
  ∧ handleCancelBooking dbW4 3 false =
      (.error (.invalidTransition "Booking is already cancelled"), dbW4) :=
  ⟨(((cancelBooking_transition_spec dbW4 2 false).2.1 bookingW4 rfl).2.2.2 rfl).1,
   (((cancelBooking_transition_spec dbW4 2 false).2.1 bookingW4 rfl).2.2.2 rfl).2.1,
   (((cancelBooking_transition_spec dbW4 2 false).2.1 bookingW4 rfl).2.2.2 rfl).2.2
     roomW4 rfl rfl,
   (((cancelBooking_transition_spec dbW4 3 false).2.1
       { id := 3, guest_id := 1, room_id := 5, check_in_date := 1,
         check_out_date := 2, total_amount := 50, status := .cancelled } rfl).2.1) rfl⟩

/-! ## Claim C1 -/

/-- Store for the C1 scenario: guest 1, room 1 available, and one stored
active booking occupying room 1 on days 5 to 7. -/
def dbC1 : DB :=
  { guests := [{ id := 1, name := "Alice", email := "alice@example.com",
                 phone := "0123456789" }],
    rooms := [{ id := 1, room_number := "101", room_type := "single",
                capacity := 2, price_per_night := 100, is_available := true }],
    bookings := [{ id := 1, guest_id := 1, room_id := 1, check_in_date := 5,
                   check_out_date := 7, total_amount := 100, status := .booked }],
    nextGuestId := 2, nextRoomId := 2, nextBookingId := 2 }

/-- A valid request for room 1 on days 20 to 22, disjoint from the stored
active range 5 to 7. -/
def reqC1 : BookingPayload :=
  { guest_id := some 1, room_id := some 1, check_in_date := some 20,
    check_out_date := some 22, total_amount := some 100 }

/-- C1 (refuted on the code, evaluated at the failing input): the stored
active booking on days 5 to 7 does not overlap the requested range 20 to
22 under the overlap test the spec states — the conjunction
existing.check_in ≤ new.check_out AND existing.check_out ≥ new.check_in —
so the claim requires this request to pass the conflict check; but the
filter the code builds at src/api/bookings.js line 174 is a PostgREST
`or` group, the DISJUNCTION of the two date comparisons, which the
disjoint stored booking satisfies, so the request is rejected with
BookingConflict.  The third conjunct exhibits the disjunction holding
while the conjunction fails on the very same ranges. -/
theorem createBooking_conflict_disjunction_bug :
    specOverlap 5 7 20 22 = false
  ∧ handleCreateBooking dbC1 10 reqC1 false false = (.error .bookingConflict, dbC1)
  ∧ conflictFilter 1 20 22
      { id := 1, guest_id := 1, room_id := 1, check_in_date := 5,
        check_out_date := 7, total_amount := 100, status := .booked } = true :=
  ⟨rfl, rfl, rfl⟩

/-! ## Claim C5 -/

/-- C5: in CreateBooking, whenever the validation and the guest, room and
availability checks pass, (a) a failure of the conflict pre-check query
makes the operation proceed without the conflict check — the created
booking is returned even though the store may hold matching conflicts —
and (b) a failure of the post-insert write that sets the room
unavailable is suppressed: the created booking is still returned and the
rooms table is left untouched. -/
theorem createBooking_best_effort_failures (db : DB) (today : Nat)
    (p : BookingPayload) (v : BookingFields)
    (hv : bookingValidate today p = .ok v)
    (g : Guest) (hg : findGuest db v.guest_id = some g)
    (r : Room) (hr : findRoom db v.room_id = some r)
    (ha : r.is_available = true) :
    (∀ uf, (handleCreateBooking db today p true uf).1 = .ok (insertBooking db v).1)
  ∧ ((db.bookings.filter
        (conflictFilter v.room_id v.check_in_date v.check_out_date)).isEmpty = true →
      ∀ cf, (handleCreateBooking db today p cf true).1 = .ok (insertBooking db v).1
          ∧ (handleCreateBooking db today p cf true).2.rooms = db.rooms) := by
  constructor
  · intro uf
    cases uf <;> simp [handleCreateBooking, hv, hg, hr, ha]
  · intro hc cf
    cases cf <;>
      refine ⟨?_, ?_⟩ <;>
        simp [handleCreateBooking, hv, hg, hr, ha, hc, insertBooking]

/-- Store for the C5 witness: guest 1, room 1 available, and a stored
active booking on room 1 whose presence would normally matter to the
conflict check. -/
def dbW5 : DB :=
  { guests := [{ id := 1, name := "Bob", email := "bob@example.com",
                 phone := "0123456789" }],
    rooms := [{ id := 1, room_number := "201", room_type := "double",
                capacity := 2, price_per_night := 120, is_available := true }],
    bookings := [{ id := 1, guest_id := 1, room_id := 1, check_in_date := 20,
                   check_out_date := 25, total_amount := 100, status := .booked }],
    nextGuestId := 2, nextRoomId := 2, nextBookingId := 2 }

/-- A request overlapping the stored active booking of `dbW5`. -/
def reqW5 : BookingPayload :=
  { guest_id := some 1, room_id := some 1, check_in_date := some 21,
    check_out_date := some 23, total_amount := some 80 }

/-- Witness for createBooking_best_effort_failures: with the conflict
query failing (and the room write failing too), the overlapping request
is still answered with the created booking. -/
theorem createBooking_best_effort_failures_witness :
    (handleCreateBooking dbW5 10 reqW5 true true).1 =
      .ok (insertBooking dbW5
        { guest_id := 1, room_id := 1, check_in_date := 21,
          check_out_date := 23, total_amount := 80 }).1 :=
  (createBooking_best_effort_failures dbW5 10 reqW5
      { guest_id := 1, room_id := 1, check_in_date := 21,
        check_out_date := 23, total_amount := 80 } rfl
      { id := 1, name := "Bob", email := "bob@example.com",
        phone := "0123456789" } rfl
      { id := 1, room_number := "201", room_type := "double",
        capacity := 2, price_per_night := 120, is_available := true } rfl
      rfl).1 true

/-! ## Claim C6 -/

/-- Guest payload violating two field rules at once: the name is a single
character (name rule requires length 2 to 100) and the phone has two
characters (phone rule requires length at least 10). -/
def badGuestPayload : GuestPayload :=
  { name := some "A", email := some "a@b.c", phone := some "12" }

/-- The empty store. -/
def dbEmpty : DB := { guests := [], rooms := [], bookings := [] }

/-- C6 (refuted on the code, at a concrete input): `badGuestPayload`
violates both the name rule and the phone rule, yet the ValidationError
carries only the single message of the first violated rule — the phone
message is absent — because every handler calls Joi validate with the
default abortEarly behaviour. -/
theorem guestValidation_multi_violation_single_message :
    nameRuleOk badGuestPayload = false
  ∧ phoneRuleOk badGuestPayload = false
  ∧ handleCreateGuest dbEmpty badGuestPayload =
      (.error (.validationFailed [guestNameMsg]), dbEmpty)
  ∧ guestPhoneMsg ∉ [guestNameMsg] := by
  refine ⟨rfl, rfl, rfl, by decide⟩

/-- C6 amended: a validation failure of any of the six schemas — create
and update for Guest, Room and Booking — carries exactly one field
message, the first violated rule in schema key order, not the full list
of violations. -/
theorem validation_reports_first_violation_only
    (gp : GuestPayload) (rp : RoomPayload) (bp : BookingPayload)
    (ugp : UpdateGuestPayload) (urp : UpdateRoomPayload)
    (up : UpdateBookingPayload) (today : Nat) :
    (∀ ds, guestValidate gp = .error ds → ds.length = 1)
  ∧ (∀ ds, roomValidate rp = .error ds → ds.length = 1)
  ∧ (∀ ds, bookingValidate today bp = .error ds → ds.length = 1)
  ∧ (∀ ds, updateGuestValidate ugp = .error ds → ds.length = 1)
  ∧ (∀ ds, updateRoomValidate urp = .error ds → ds.length = 1)
  ∧ (∀ ds, updateBookingValidate up = .error ds → ds.length = 1) := by
  refine ⟨?_, ?_, ?_, ?_, ?_, ?_⟩
  · intro ds h; unfold guestValidate at h
    split_ifs at h
    all_goals injection h with h; subst h; rfl
  · intro ds h; unfold roomValidate at h
    split_ifs at h
    all_goals injection h with h; subst h; rfl
  · intro ds h; unfold bookingValidate at h
    split_ifs at h
    all_goals injection h with h; subst h; rfl
  · intro ds h; unfold updateGuestValidate at h
    split_ifs at h
    all_goals injection h with h; subst h; rfl
  · intro ds h; unfold updateRoomValidate at h
    split_ifs at h
    all_goals injection h with h; subst h; rfl
  · intro ds h; unfold updateBookingValidate at h
    split_ifs at h
    all_goals injection h with h; subst h; rfl

/-- Witness for validation_reports_first_violation_only: the all-empty
guest payload fails validation and the reported details list has exactly
one message. -/
theorem validation_reports_first_violation_only_witness :
    guestValidate {} = .error [guestNameMsg] ∧ ([guestNameMsg] : List String).length = 1 :=
  ⟨rfl, (validation_reports_first_violation_only {} {} {} {} {} {} 0).1 [guestNameMsg] rfl⟩

/-! ## Claim C7 -/

/-- C7: once validation passes, CreateBooking checks its preconditions in
order — guest existence first, then room existence, then the availability
flag — and each failing check returns its error with the store returned
unchanged (no booking inserted, no room modified).  The guest clause
holds for every store, in particular when the room is also missing, and
the room clause for every availability value, which exhibits the
evaluation order. -/
theorem createBooking_precheck_order (db : DB) (today : Nat)
    (p : BookingPayload) (v : BookingFields)
    (hv : bookingValidate today p = .ok v) (cf uf : Bool) :
    (findGuest db v.guest_id = none →
       handleCreateBooking db today p cf uf = (.error .guestNotFound, db))
  ∧ (∀ g, findGuest db v.guest_id = some g → findRoom db v.room_id = none →
       handleCreateBooking db today p cf uf = (.error .roomNotFound, db))
  ∧ (∀ g r, findGuest db v.guest_id = some g → findRoom db v.room_id = some r →
       r.is_available = false →
       handleCreateBooking db today p cf uf = (.error .roomUnavailable, db)) := by
  refine ⟨?_, ?_, ?_⟩
  · intro h; simp [handleCreateBooking, hv, h]
  · intro g hg hr; simp [handleCreateBooking, hv, hg, hr]
  · intro g r hg hr ha; simp [handleCreateBooking, hv, hg, hr, ha]

/-- Store for the C7 witness: no guests at all, an unavailable room 9. -/
def dbW7 : DB :=
  { guests := [],
    rooms := [{ id := 9, room_number := "301", room_type := "suite",
                capacity := 3, price_per_night := 300, is_available := false }],
    bookings := [] }

/-- A shape-valid request referencing the missing guest 1 and room 9. -/
def reqW7 : BookingPayload :=
  { guest_id := some 1, room_id := some 9, check_in_date := some 20,
    check_out_date := some 22, total_amount := some 60 }

/-- Witness for createBooking_precheck_order: on `dbW7` the request is
rejected with the guest error first — even though the referenced room is
also unavailable — and the store is returned unchanged. -/
theorem createBooking_precheck_order_witness :
    handleCreateBooking dbW7 10 reqW7 false false = (.error .guestNotFound, dbW7) :=
  (createBooking_precheck_order dbW7 10 reqW7
      { guest_id := 1, room_id := 9, check_in_date := 20,
        check_out_date := 22, total_amount := 60 } rfl false false).1 rfl

/-! ## Claim C8 -/

/-- The guard query of the delete handlers selects exactly the bookings
that reference the entity and have status booked or checked_in. -/
theorem isActive_iff (s : BookingStatus) :
    isActive s = true ↔ s = .booked ∨ s = .checked_in := by
  cases s <;> simp [isActive]

/-- C8: deleting a Guest or a Room referenced by at least one booking
with status booked or checked_in is rejected with the guard error and
the store is returned unchanged (the entity remains stored); once no
referencing booking has such a status — cancelled and checked_out do not
count as active — the delete succeeds and removes exactly the rows with
the given id.  The membership clauses identify the guard set as exactly
the active-status referencing bookings. -/
theorem delete_guard_spec (db : DB) (gid rid : Nat) :
    (∀ b : Booking, b ∈ activeGuestBookings db gid ↔
       b ∈ db.bookings ∧ b.guest_id = gid ∧ (b.status = .booked ∨ b.status = .checked_in))
  ∧ ((activeGuestBookings db gid).isEmpty = false →
       handleDeleteGuest db gid =
         (.error (.activeBookingsGuard "Cannot delete guest with active bookings"), db))
  ∧ ((activeGuestBookings db gid).isEmpty = true →
       handleDeleteGuest db gid =
         (.ok "Guest deleted successfully",
          { db with guests := db.guests.filter (fun g => g.id != gid) }))
  ∧ (∀ b : Booking, b ∈ activeRoomBookings db rid ↔
       b ∈ db.bookings ∧ b.room_id = rid ∧ (b.status = .booked ∨ b.status = .checked_in))
  ∧ ((activeRoomBookings db rid).isEmpty = false →
       handleDeleteRoom db rid =
         (.error (.activeBookingsGuard "Cannot delete room with active bookings"), db))
  ∧ ((activeRoomBookings db rid).isEmpty = true →
       handleDeleteRoom db rid =
         (.ok "Room deleted successfully",
          { db with rooms := db.rooms.filter (fun r => r.id != rid) }))
  ∧ (isActive .cancelled = false ∧ isActive .checked_out = false) := by
  refine ⟨?_, ?_, ?_, ?_, ?_, ?_, rfl, rfl⟩
  · intro b
    simp [activeGuestBookings, List.mem_filter, isActive_iff, and_assoc]
  · intro h; simp [handleDeleteGuest, h]
  · intro h; simp [handleDeleteGuest, h]
  · intro b
    simp [activeRoomBookings, List.mem_filter, isActive_iff, and_assoc]
  · intro h; simp [handleDeleteRoom, h]
  · intro h; simp [handleDeleteRoom, h]

/-- Guest 7 for the C8 witness. -/
def guestW8 : Guest :=
  { id := 7, name := "Cara", email := "cara@example.com", phone := "0123456789" }

/-- Store in which guest 7 holds one booked (hence active) booking. -/
def dbW8 : DB :=
  { guests := [guestW8], rooms := [],
    bookings := [{ id := 1, guest_id := 7, room_id := 1, check_in_date := 3,
                   check_out_date := 4, total_amount := 10, status := .booked }] }

/-- The same store after the booking was cancelled. -/
def dbW8c : DB :=
  { guests := [guestW8], rooms := [],
    bookings := [{ id := 1, guest_id := 7, room_id := 1, check_in_date := 3,
                   check_out_date := 4, total_amount := 10, status := .cancelled }] }

/-- Witness for delete_guard_spec: deleting guest 7 fails while the
referencing booking is booked and leaves the store unchanged, and
succeeds once that booking is cancelled. -/
theorem delete_guard_spec_witness :
    handleDeleteGuest dbW8 7 =
      (.error (.activeBookingsGuard "Cannot delete guest with active bookings"), dbW8)
  ∧ handleDeleteGuest dbW8c 7 =
      (.ok "Guest deleted successfully",
       { dbW8c with guests := dbW8c.guests.filter (fun g => g.id != 7) }) :=
  ⟨(delete_guard_spec dbW8 7 0).2.1 rfl, (delete_guard_spec dbW8c 7 0).2.2.1 rfl⟩

/-! ## Claim C9 -/

/-- Whether an Except value is an error. -/
def isErr {ε α : Type} : Except ε α → Bool
  | .error _ => true
  | .ok _ => false

/-- C9: the room-create schema has no is_available field, so any payload
carrying one fails validation; and every successfully created room is
returned and stored with is_available = true, whatever the payload. -/
theorem createRoom_is_available_always_true (db : DB) (p : RoomPayload) :
    (p.is_available.isSome = true → isErr (roomValidate p) = true)
  ∧ (∀ r db2, handleCreateRoom db p = (.ok r, db2) →
       r.is_available = true ∧ r ∈ db2.rooms) := by
  constructor
  · intro h
    unfold roomValidate
    split_ifs with h1 h2 h3 h4 <;> simp_all [isErr]
  · intro r db2 h
    unfold handleCreateRoom at h
    split at h
    · simp at h
    · split at h
      · simp at h
      · rw [Prod.mk.injEq] at h
        obtain ⟨h1, h2⟩ := h
        injection h1 with h1
        subst h1; subst h2
        simp

/-- A fully valid room payload for the C9 witness. -/
def roomPayloadW9 : RoomPayload :=
  { room_number := some "101", room_type := some "single",
    capacity := some 2, price_per_night := some 100 }

/-- The same payload additionally carrying the unknown is_available key. -/
def roomPayloadW9flag : RoomPayload :=
  { roomPayloadW9 with is_available := some false }

/-- The room the create inserts for `roomPayloadW9` on an empty store. -/
def roomW9 : Room :=
  { id := 1, room_number := "101", room_type := "single", capacity := 2,
    price_per_night := 100, is_available := true }

/-- Witness for createRoom_is_available_always_true: the payload with the
is_available key is rejected by validation, and the plain payload creates
a room stored with is_available = true. -/
theorem createRoom_is_available_always_true_witness :
    isErr (roomValidate roomPayloadW9flag) = true
  ∧ (roomW9.is_available = true ∧ roomW9 ∈
      (DB.mk [] [roomW9] [] 1 2 1).rooms) :=
  ⟨(createRoom_is_available_always_true dbEmpty roomPayloadW9flag).1 rfl,
   (createRoom_is_available_always_true dbEmpty roomPayloadW9).2 roomW9
     (DB.mk [] [roomW9] [] 1 2 1) rfl⟩

/-! ## Claim C10 -/

/-- A booking-update payload that patches only the two dates. -/
def datePatch (ci co : Nat) : UpdateBookingPayload :=
  { check_in_date := some ci, check_out_date := some co }

/-- C10: UpdateBooking checks the dates only for shape: for every stored
booking and arbitrary day values ci and co — in particular co strictly
earlier than ci, or either date before today, neither of which the
update schema constrains — the patch passes validation, the update
succeeds, and the stored row carries the new dates.  The store is
universally quantified, so the result holds whatever conflicting
bookings exist and whatever the availability of any room: no conflict or
availability re-check is performed. -/
theorem updateBooking_dates_unguarded (db : DB) (bid : Nat) (b : Booking)
    (hb : findBooking db bid = some b) (ci co : Nat) :
    updateBookingValidate (datePatch ci co) = .ok (datePatch ci co)
  ∧ (handleUpdateBooking db bid (datePatch ci co)).1 =
      .ok { b with check_in_date := ci, check_out_date := co }
  ∧ findBooking (handleUpdateBooking db bid (datePatch ci co)).2 bid =
      some { b with check_in_date := ci, check_out_date := co } := by
  refine ⟨rfl, ?_, ?_⟩
  · simp [handleUpdateBooking, updateBookingValidate, updateHasKey, datePatch,
          hb, applyPatch]
  · have h2 : (handleUpdateBooking db bid (datePatch ci co)).2 =
        updateBookingRow db bid (fun x => applyPatch x (datePatch ci co)) := by
      simp [handleUpdateBooking, updateBookingValidate, updateHasKey, datePatch, hb]
    rw [h2]
    exact findBooking_update db bid (fun x => applyPatch x (datePatch ci co))
      (fun x => rfl) b hb

/-- Past-dated checked-in booking for the C10 witness. -/
def bookingW10 : Booking :=
  { id := 6, guest_id := 1, room_id := 1, check_in_date := 10,
    check_out_date := 12, total_amount := 100, status := .booked }

/-- Store holding `bookingW10`. -/
def dbW10 : DB := { guests := [], rooms := [], bookings := [bookingW10] }

/-- Witness for updateBooking_dates_unguarded: patching the stored
booking to check_in_date 9 and check_out_date 3 — a check-out strictly
before the check-in — is accepted and written. -/
theorem updateBooking_dates_unguarded_witness :
    updateBookingValidate (datePatch 9 3) = .ok (datePatch 9 3)
  ∧ (handleUpdateBooking dbW10 6 (datePatch 9 3)).1 =
      .ok { bookingW10 with check_in_date := 9, check_out_date := 3 }
  ∧ findBooking (handleUpdateBooking dbW10 6 (datePatch 9 3)).2 6 =
      some { bookingW10 with check_in_date := 9, check_out_date := 3 } :=
  updateBooking_dates_unguarded dbW10 6 bookingW10 rfl 9 3

end Hotel
